import Mathlib

/-!
Shallow embedding of the stock-dashboard data pipeline
(`src/services/stockService.ts` and `src/components/StockChart.tsx`).

JavaScript numbers that arise from JSON parsing are modelled as `Option ℚ`
(`none` = the field is absent/`undefined`; JSON itself cannot encode `NaN`
or `Infinity`, so parsed fields are always finite).  Values *computed* by
the code can be `NaN` or `±Infinity`, so computed numbers live in `JsNum`.
HTTP requests are modelled by their observable outcome: a network error
(the promise rejects), or a response with an `ok` flag, a status code and
a body that either parses (`some a`) or fails to parse (`none`, in which
case `await resp.json()` throws).  Wall-clock reads (`Date.now()`) are
passed in explicitly as integer millisecond timestamps.
-/

/-- Result of a computation on JS numbers: finite, `±Infinity`, or `NaN`. -/
inductive JsNum where
  | fin (q : ℚ)
  | inf
  | ninf
  | nan
deriving DecidableEq

/-- JS `x.toFixed(2)` followed by `parseFloat`: round a finite number to 2
decimal places (ties go to the larger value, as `toFixed` specifies, i.e.
`⌊x * 100 + 1/2⌋ / 100`); `Infinity` and `NaN` round-trip unchanged
through their string forms. -/
def round2 (q : ℚ) : ℚ := ((⌊q * 100 + 1/2⌋ : ℤ) : ℚ) / 100

def toFixed2ParseFloat : JsNum → JsNum
  | .fin q => .fin (round2 q)
  | x => x

/-- JS `x || 0` on a possibly-missing number: `undefined` and `0` are falsy. -/
def jsOrZero (o : Option ℚ) : ℚ :=
  match o with
  | none => 0
  | some q => if q = 0 then 0 else q

/-- `StockData` record from `stockService.ts`. -/
structure StockData where
  symbol : String
  name : String
  price : ℚ
  changePercent : JsNum
  volume : ℚ
deriving DecidableEq

/-- Body of the Finnhub `/quote` response: `c` current price, `pc` previous
close, `v` volume (each possibly absent). -/
structure QuoteJson where
  c : Option ℚ
  pc : Option ℚ
  v : Option ℚ
deriving DecidableEq

/-- Body of the Finnhub `/stock/profile2` response. -/
structure ProfileJson where
  name : Option String
deriving DecidableEq

/-- Observable outcome of one HTTP request: the fetch promise rejects
(`netError`), or a response arrives with `ok`, `status`, and a body that
parses to `some a` or fails to parse (`none`). -/
inductive HttpResult (α : Type) where
  | netError
  | resp (ok : Bool) (status : ℕ) (body : Option α)
deriving DecidableEq

/-- JS `quoteData.c ? ((quoteData.c - quoteData.pc) / quoteData.pc) * 100 : 0`.
The ternary guard tests `c` (not `pc`): `undefined` and `0` are falsy.
When the guard is truthy, JS arithmetic gives `NaN` if `pc` is `undefined`
and `±Infinity` if `pc` is `0` (sign of the nonzero dividend `c - 0`). -/
def rawChangePercent (c pc : Option ℚ) : JsNum :=
  match c with
  | none => .fin 0
  | some q =>
    if q = 0 then .fin 0
    else
      match pc with
      | none => .nan
      | some p =>
        if p = 0 then (if 0 < q then .inf else .ninf)
        else .fin ((q - p) / p * 100)

/-- The `try`-block of `fetchStockFromFinnhub` (lines 78-117 of
`stockService.ts`): everything that can `throw` is an `Except.error`.
The quote request: rejection, non-ok status (429 gets its own message),
or a body that fails to parse all throw.  The profile request: rejection
or (when ok) a parse failure throw; a non-ok profile response is skipped
and the symbol is used as the company name; a present, non-empty `name`
field (JS truthiness of a string) overrides it. -/
def fetchStockFromFinnhubBody (symbol : String)
    (quoteReq : HttpResult QuoteJson) (profileReq : HttpResult ProfileJson) :
    Except String StockData :=
  match quoteReq with
  | .netError => .error "fetch failed"
  | .resp ok status body =>
    if ok = false then
      if status = 429 then .error "Rate limit reached"
      else .error ("HTTP error! status: " ++ toString status)
    else
      match body with
      | none => .error "invalid json"
      | some quoteData =>
        match profileReq with
        | .netError => .error "fetch failed"
        | .resp pok _ pbody =>
          let nameRes : Except String String :=
            if pok = true then
              match pbody with
              | none => .error "invalid json"
              | some profileData =>
                .ok (match profileData.name with
                     | some n => if n = "" then symbol else n
                     | none => symbol)
            else .ok symbol
          match nameRes with
          | .error e => .error e
          | .ok companyName =>
            .ok { symbol := symbol
                , name := companyName
                , price := jsOrZero quoteData.c
                , changePercent :=
                    toFixed2ParseFloat (rawChangePercent quoteData.c quoteData.pc)
                , volume := jsOrZero quoteData.v }

/-- `fetchStockFromFinnhub`: the whole body is wrapped in `try … catch`,
and the catch logs and returns `null` (here `none`). -/
def fetchStockFromFinnhub (symbol : String)
    (quoteReq : HttpResult QuoteJson) (profileReq : HttpResult ProfileJson) :
    Option StockData :=
  match fetchStockFromFinnhubBody symbol quoteReq profileReq with
  | .ok r => some r
  | .error _ => none

/-- The module-level cache (`cachedStockData` / `cacheTimestamp`). -/
structure CacheState where
  data : List StockData
  timestamp : ℤ
deriving DecidableEq

/-- `CACHE_DURATION = 5 * 60 * 1000` milliseconds. -/
def CACHE_DURATION : ℤ := 5 * 60 * 1000

/-- `cacheStockData`: overwrite the cache with `data` and `Date.now()`. -/
def cacheStockData (data : List StockData) (now : ℤ) : CacheState :=
  { data := data, timestamp := now }

/-- `getCachedStockData`: the held snapshot while fresh, else `[]`. -/
def getCachedStockData (s : CacheState) (now : ℤ) : List StockData :=
  if now - s.timestamp < CACHE_DURATION then s.data else []

/-- Per-run environment: for each symbol, the outcomes of its quote and
profile requests. -/
def SymbolEnv : Type := String → HttpResult QuoteJson × HttpResult ProfileJson

/-- `fetchStocksFromFinnhub`: fan out over the symbols, keep the non-null
results (`filter(Boolean)`), and cache them unconditionally.  Returns the
surviving records together with the new cache state. -/
def fetchStocksFromFinnhub (symbols : List String) (env : SymbolEnv)
    (now : ℤ) : List StockData × CacheState :=
  let validResults :=
    symbols.filterMap (fun s => fetchStockFromFinnhub s (env s).1 (env s).2)
  (validResults, cacheStockData validResults now)

inductive Severity where
  | warning
  | info
deriving DecidableEq

/-- An event delivered through the `onNotification` callback. -/
structure NotificationEvent where
  severity : Severity
  title : String
  message : String
deriving DecidableEq

/-- Full outcome of one run of the orchestrated fetch: the value returned
to (or error thrown at) the caller, the cache state afterwards, and the
notification events emitted, in order. -/
structure FetchRun where
  result : Except String (List StockData)
  cache : CacheState
  events : List NotificationEvent

/-- The fixed symbol universe of `fetchStockData`. -/
def symbols : List String :=
  ["AAPL", "GOOGL", "MSFT", "AMZN", "TSLA", "META", "NVDA", "NFLX", "JPM", "JNJ"]

/-- `fetchStockData` (lines 13-51): missing API key throws before the `try`.
Otherwise the batch loader runs (mutating the cache at time `tStore`); an
empty batch throws, which the `catch` turns into a read of the (already
overwritten) cache at time `tRead`: a non-empty cached list is returned
with a warning event, an empty one becomes the fatal error.  A non-empty
batch is returned with an info event.  `fetchStocksFromFinnhub` itself
cannot reject: every per-symbol promise resolves (to a record or `null`),
so the only route into the `catch` is the empty-batch throw. -/
def fetchStockData (apiKey : Option String) (env : SymbolEnv)
    (cache₀ : CacheState) (tStore tRead : ℤ) : FetchRun :=
  match apiKey with
  | none =>
    { result := .error "Finnhub API key not found. Please add REACT_APP_FINNHUB_API_KEY to your .env file."
    , cache := cache₀
    , events := [] }
  | some _ =>
    let fetched := fetchStocksFromFinnhub symbols env tStore
    let stockData := fetched.1
    let cache₁ := fetched.2
    if stockData.length = 0 then
      if 0 < (getCachedStockData cache₁ tRead).length then
        { result := .ok (getCachedStockData cache₁ tRead)
        , cache := cache₁
        , events := [⟨.warning, "Using Cached Data",
            "API temporarily unavailable. Showing cached data from previous session."⟩] }
      else
        { result := .error "Failed to fetch stock data from Finnhub API"
        , cache := cache₁
        , events := [] }
    else
      { result := .ok stockData
      , cache := cache₁
      , events := [⟨.info, "Data Updated",
          "Successfully loaded " ++ toString stockData.length ++
          " stocks with real-time data from Finnhub."⟩] }

/-- Body of the Finnhub `/stock/candle` response: parallel arrays of Unix
timestamps (`t`) and close prices (`c`), either possibly absent. -/
structure CandlePayload where
  t : Option (List ℤ)
  c : Option (List ℚ)
deriving DecidableEq

/-- Outcome of the retry loop in `fetchHistoricalDataWithRetry`: the parsed
payload or the propagated error, together with the waits performed (in
milliseconds, chronological order). -/
inductive RetryResult where
  | success (d : CandlePayload) (delays : List ℕ)
  | failure (msg : String) (delays : List ℕ)
deriving DecidableEq

/-- Record a wait of `ms` milliseconds in front of a result's delay list. -/
def RetryResult.addDelay (ms : ℕ) : RetryResult → RetryResult
  | .success d ds => .success d (ms :: ds)
  | .failure m ds => .failure m (ms :: ds)

/-- One iteration of the `for (let attempt = 0; attempt <= retries; attempt++)`
loop in `fetchHistoricalDataWithRetry` (lines 89-123 of `StockChart.tsx`),
compiled with an explicit structural counter `fuel = retries + 1 - attempt`
(the number of loop iterations still permitted); `fuel = 0` is the loop
exiting and reaching the final `throw`.  A 429 response waits 2000 ms and
`continue`s — which still increments `attempt`, hence consumes fuel.  Any
other failure (rejected fetch, other non-ok status, unparseable body) is
caught: on the final attempt (`attempt = retries`) it is rethrown,
otherwise the loop waits `1000 * 2 ^ attempt` ms and retries. -/
def retryLoop (responses : ℕ → HttpResult CandlePayload) (retries : ℕ) :
    ℕ → ℕ → RetryResult
  | 0, _ => .failure "Failed to fetch historical data after retries" []
  | fuel + 1, attempt =>
    match responses attempt with
    | .resp true _ (some d) => .success d []
    | .resp true _ none =>
      if attempt = retries then .failure "invalid json" []
      else .addDelay (1000 * 2 ^ attempt) (retryLoop responses retries fuel (attempt + 1))
    | .resp false status _ =>
      if status = 429 then
        .addDelay 2000 (retryLoop responses retries fuel (attempt + 1))
      else if attempt = retries then
        .failure ("HTTP error! status: " ++ toString status) []
      else .addDelay (1000 * 2 ^ attempt) (retryLoop responses retries fuel (attempt + 1))
    | .netError =>
      if attempt = retries then .failure "fetch failed" []
      else .addDelay (1000 * 2 ^ attempt) (retryLoop responses retries fuel (attempt + 1))

/-- `fetchHistoricalDataWithRetry(symbol, apiKey, retries)`: run the loop
from `attempt = 0` with `retries + 1` iterations permitted. -/
def fetchHistoricalDataWithRetry (responses : ℕ → HttpResult CandlePayload)
    (retries : ℕ) : RetryResult :=
  retryLoop responses retries (retries + 1) 0

/-- Does this response send the loop iteration into the `catch` block
(anything but a parsed ok response or the 429 `continue` path)? -/
def throwsInLoop : HttpResult CandlePayload → Bool
  | .netError => true
  | .resp true _ none => true
  | .resp true _ (some _) => false
  | .resp false status _ => status ≠ 429

/-- Is this response the one successful shape (ok status, body parses)? -/
def isSuccessResp : HttpResult CandlePayload → Bool
  | .resp true _ (some _) => true
  | _ => false

/-- The random walk underlying `generateFallbackData`: `walk 0` is the
stock's current price, and step `k` multiplies by
`1 + (Math.random() - 0.5) * 0.1` with the `k`-th random draw. -/
def fallbackWalk (rand : ℕ → ℚ) (price : ℚ) : ℕ → ℚ
  | 0 => price
  | k + 1 => fallbackWalk rand price k * (1 + (rand k - 1/2) * (1/10))

/-- Chart data held in the component state. -/
structure HistoricalData where
  labels : List String
  data : List ℚ
deriving DecidableEq

/-- `generateFallbackData` (lines 128-147): loop `i` from 30 down to 0
(31 iterations); iteration `k` labels the point with the date `30 - k`
days ago, applies one random ±5% multiplicative step to the running
price, and pushes the stepped price rounded to 2 decimals.
`dayLabel n` stands for the formatted date `n` days before today. -/
def generateFallbackData (rand : ℕ → ℚ) (price : ℚ)
    (dayLabel : ℕ → String) : HistoricalData :=
  { labels := (List.range 31).map (fun k => dayLabel (30 - k))
  , data := (List.range 31).map (fun k => round2 (fallbackWalk rand price (k + 1))) }

/-- Outcome of one run of `fetchHistoricalData`: the chart data finally
set, the error state, and whether the synthetic fallback was used. -/
structure ChartFetchResult where
  chart : HistoricalData
  error : Option String
  usedFallback : Bool
deriving DecidableEq

/-- `fetchHistoricalData` (lines 45-86): a missing API key throws, and the
`catch` sets the error state and falls back; a retry-loop failure does the
same.  A parsed payload with both arrays present is truncated to its last
30 points (`slice(max(0, t.length - 30))`, taken on both arrays) and
displayed; a payload missing either array silently falls back (no error
state).  `tsLabel` stands for the date formatting of a Unix timestamp. -/
def fetchHistoricalData (apiKey : Option String)
    (responses : ℕ → HttpResult CandlePayload) (rand : ℕ → ℚ)
    (stockPrice : ℚ) (dayLabel : ℕ → String) (tsLabel : ℤ → String) :
    ChartFetchResult :=
  match apiKey with
  | none =>
    { chart := generateFallbackData rand stockPrice dayLabel
    , error := some "Failed to load historical data"
    , usedFallback := true }
  | some _ =>
    match fetchHistoricalDataWithRetry responses 2 with
    | .failure _ _ =>
      { chart := generateFallbackData rand stockPrice dayLabel
      , error := some "Failed to load historical data"
      , usedFallback := true }
    | .success d _ =>
      match d.t, d.c with
      | some ts, some cs =>
        { chart := { labels := (ts.drop (ts.length - 30)).map tsLabel
                   , data := cs.drop (ts.length - 30) }
        , error := none
        , usedFallback := false }
      | some _, none =>
        { chart := generateFallbackData rand stockPrice dayLabel
        , error := none
        , usedFallback := true }
      | none, _ =>
        { chart := generateFallbackData rand stockPrice dayLabel
        , error := none
        , usedFallback := true }

/-- Does this profile-request outcome avoid throwing inside the quote
fetcher's `try` block (i.e. it is not a rejected fetch, and not an ok
response whose body fails to parse)? -/
def profileNoThrow : HttpResult ProfileJson → Bool
  | .netError => false
  | .resp true _ none => false
  | .resp true _ (some _) => true
  | .resp false _ _ => true

/-! ### Helper lemmas about the quote fetcher -/

theorem fetchStockFromFinnhub_quoteOk_fields (sym : String) (st : ℕ)
    (qd : QuoteJson) (p : HttpResult ProfileJson) (r : StockData)
    (h : fetchStockFromFinnhub sym (.resp true st (some qd)) p = some r) :
    r.symbol = sym ∧ r.price = jsOrZero qd.c ∧
    r.changePercent = toFixed2ParseFloat (rawChangePercent qd.c qd.pc) ∧
    r.volume = jsOrZero qd.v := by
  cases p with
  | netError => simp [fetchStockFromFinnhub, fetchStockFromFinnhubBody] at h
  | resp pok pst pbody =>
    cases pok with
    | false =>
      simp only [fetchStockFromFinnhub, fetchStockFromFinnhubBody] at h
      simp at h
      subst h
      exact ⟨rfl, rfl, rfl, rfl⟩
    | true =>
      cases pbody with
      | none => simp [fetchStockFromFinnhub, fetchStockFromFinnhubBody] at h
      | some pd =>
        simp only [fetchStockFromFinnhub, fetchStockFromFinnhubBody] at h
        simp at h
        subst h
        exact ⟨rfl, rfl, rfl, rfl⟩

theorem fetchStockFromFinnhub_symbol (sym : String) (q : HttpResult QuoteJson)
    (p : HttpResult ProfileJson) (r : StockData)
    (h : fetchStockFromFinnhub sym q p = some r) : r.symbol = sym := by
  cases q with
  | netError => simp [fetchStockFromFinnhub, fetchStockFromFinnhubBody] at h
  | resp ok st body =>
    cases ok with
    | false =>
      by_cases h429 : st = 429 <;>
        simp [fetchStockFromFinnhub, fetchStockFromFinnhubBody, h429] at h
    | true =>
      cases body with
      | none => simp [fetchStockFromFinnhub, fetchStockFromFinnhubBody] at h
      | some qd => exact (fetchStockFromFinnhub_quoteOk_fields sym st qd p r h).1

theorem round2_eq (q : ℚ) (z : ℤ) (h₁ : (z : ℚ) ≤ q * 100 + 1/2)
    (h₂ : q * 100 + 1/2 < z + 1) : round2 q = (z : ℚ) / 100 := by
  rw [round2, Int.floor_eq_iff.mpr ⟨h₁, h₂⟩]

theorem round2_zero : round2 0 = 0 := by
  rw [round2_eq 0 0 (by norm_num) (by norm_num)]
  norm_num

/-! ### Claim theorems -/

/-- C2 counterexample: a quote response with current price `c = 100` and
previous close `pc = 0` produces `changePercent = Infinity`, not `0` as the
claim states — the code's ternary guards on `c`, not on `pc`. -/
theorem C2_counterexample :
    fetchStockFromFinnhub "AAPL"
        (.resp true 200 (some ⟨some 100, some 0, some 5⟩))
        (.resp false 500 none)
      = some ⟨"AAPL", "AAPL", 100, .inf, 5⟩
    ∧ JsNum.inf ≠ JsNum.fin 0 := by
  refine ⟨?_, by simp⟩
  norm_num [fetchStockFromFinnhub, fetchStockFromFinnhubBody, jsOrZero,
    rawChangePercent, toFixed2ParseFloat]

/-- C2 amended: for every quote response that yields a record,
`changePercent` is `0` exactly when the *current price* `c` is missing or
zero; when `c` is a nonzero number it equals `(c - pc) / pc * 100` rounded
to 2 decimal places if `pc` is a nonzero number, but is `+Infinity`
(resp. `-Infinity`) when `pc = 0` and `c` is positive (resp. negative),
and `NaN` when `pc` is missing. -/
theorem C2_amended (sym : String) (st : ℕ) (c pc v : Option ℚ)
    (p : HttpResult ProfileJson) (r : StockData)
    (h : fetchStockFromFinnhub sym (.resp true st (some ⟨c, pc, v⟩)) p = some r) :
    ((c = none ∨ c = some 0) → r.changePercent = .fin 0) ∧
    (∀ q pq : ℚ, c = some q → q ≠ 0 → pc = some pq → pq ≠ 0 →
      r.changePercent = .fin (round2 ((q - pq) / pq * 100))) ∧
    (∀ q : ℚ, c = some q → 0 < q → pc = some 0 → r.changePercent = .inf) ∧
    (∀ q : ℚ, c = some q → q < 0 → pc = some 0 → r.changePercent = .ninf) ∧
    (∀ q : ℚ, c = some q → q ≠ 0 → pc = none → r.changePercent = .nan) := by
  have hcp : r.changePercent = toFixed2ParseFloat (rawChangePercent c pc) :=
    (fetchStockFromFinnhub_quoteOk_fields sym st ⟨c, pc, v⟩ p r h).2.2.1
  refine ⟨?_, ?_, ?_, ?_, ?_⟩
  · rintro (rfl | rfl) <;>
      simp [hcp, rawChangePercent, toFixed2ParseFloat, round2_zero]
  · rintro q pq rfl hq rfl hpq
    simp [hcp, rawChangePercent, toFixed2ParseFloat, hq, hpq]
  · rintro q rfl hq rfl
    simp [hcp, rawChangePercent, toFixed2ParseFloat, hq, ne_of_gt hq]
  · rintro q rfl hq rfl
    simp [hcp, rawChangePercent, toFixed2ParseFloat, ne_of_lt hq, not_lt.mpr (le_of_lt hq)]
  · rintro q rfl hq rfl
    simp [hcp, rawChangePercent, toFixed2ParseFloat, hq]

/-- C2 amended, witnessed at price 110 against previous close 100:
the stored record's `changePercent` is `10.00`. -/
theorem C2_amended_witness :
    (⟨"AAPL", "AAPL", 110, .fin 10, 5⟩ : StockData).changePercent
      = .fin (round2 ((110 - 100) / 100 * 100)) := by
  have hfetch : fetchStockFromFinnhub "AAPL"
      (.resp true 200 (some ⟨some 110, some 100, some 5⟩)) (.resp false 500 none)
      = some ⟨"AAPL", "AAPL", 110, .fin 10, 5⟩ := by
    have h10 : round2 (10 : ℚ) = 10 := by
      rw [round2_eq 10 1000 (by norm_num) (by norm_num)]
      norm_num
    norm_num [fetchStockFromFinnhub, fetchStockFromFinnhubBody, jsOrZero,
      rawChangePercent, toFixed2ParseFloat, h10]
  exact (C2_amended "AAPL" 200 (some 110) (some 100) (some 5) (.resp false 500 none)
      ⟨"AAPL", "AAPL", 110, .fin 10, 5⟩ hfetch).2.1 110 100 rfl
    (by norm_num) rfl (by norm_num)

/-- C4 counterexample: the quote request succeeds (price 100, previous
close 50, volume 10) but the profile request's fetch rejects (network
error); the rejection propagates to the outer catch, so the per-symbol
fetch returns no record instead of a record named by the symbol. -/
theorem C4_counterexample :
    fetchStockFromFinnhub "AAPL"
        (.resp true 200 (some ⟨some 100, some 50, some 10⟩)) .netError
      = none := by
  norm_num [fetchStockFromFinnhub, fetchStockFromFinnhubBody]

/-- C4 amended: after a successful, parsed quote response, a profile
response with a non-OK status, or an OK response whose parsed payload has
no name or an empty name, falls back to the symbol as display name and
still yields a record; but a profile network error, or an OK profile
response whose body fails to parse, makes the whole per-symbol fetch
return no record. -/
theorem C4_amended (sym : String) (st : ℕ) (qd : QuoteJson) :
    (∀ (pst : ℕ) (pbody : Option ProfileJson), ∃ r : StockData,
        fetchStockFromFinnhub sym (.resp true st (some qd)) (.resp false pst pbody)
          = some r ∧ r.name = sym) ∧
    (∀ pst : ℕ, ∃ r : StockData,
        fetchStockFromFinnhub sym (.resp true st (some qd)) (.resp true pst (some ⟨none⟩))
          = some r ∧ r.name = sym) ∧
    (∀ pst : ℕ, ∃ r : StockData,
        fetchStockFromFinnhub sym (.resp true st (some qd)) (.resp true pst (some ⟨some ""⟩))
          = some r ∧ r.name = sym) ∧
    (∀ (pst : ℕ) (n : String), n ≠ "" → ∃ r : StockData,
        fetchStockFromFinnhub sym (.resp true st (some qd)) (.resp true pst (some ⟨some n⟩))
          = some r ∧ r.name = n) ∧
    fetchStockFromFinnhub sym (.resp true st (some qd)) .netError = none ∧
    (∀ pst : ℕ,
        fetchStockFromFinnhub sym (.resp true st (some qd)) (.resp true pst none) = none) := by
  refine ⟨?_, ?_, ?_, ?_, ?_, ?_⟩
  · intro pst pbody
    exact ⟨_, rfl, rfl⟩
  · intro pst
    exact ⟨_, rfl, rfl⟩
  · intro pst
    refine ⟨_, rfl, ?_⟩
    simp [fetchStockFromFinnhub, fetchStockFromFinnhubBody]
  · intro pst n hn
    refine ⟨_, rfl, ?_⟩
    simp [fetchStockFromFinnhub, fetchStockFromFinnhubBody, hn]
  · rfl
  · intro pst
    rfl

/-- C4 amended, witnessed: a non-OK profile response falls back to the
symbol as display name, and a parsed profile name is used when present. -/
theorem C4_amended_witness :
    (∃ r : StockData,
        fetchStockFromFinnhub "AAPL"
            (.resp true 200 (some ⟨some 100, some 50, some 10⟩)) (.resp false 500 none)
          = some r ∧ r.name = "AAPL") ∧
    (∃ r : StockData,
        fetchStockFromFinnhub "AAPL"
            (.resp true 200 (some ⟨some 100, some 50, some 10⟩))
            (.resp true 200 (some ⟨some "Apple Inc"⟩))
          = some r ∧ r.name = "Apple Inc") :=
  ⟨(C4_amended "AAPL" 200 ⟨some 100, some 50, some 10⟩).1 500 none,
   (C4_amended "AAPL" 200 ⟨some 100, some 50, some 10⟩).2.2.2.1 200 "Apple Inc"
     (by simp)⟩

/-- C5: the per-symbol fetch never surfaces an exception: the whole body
is caught, so the caller always sees `some record` (when the body returned
one) or `none` (when the body threw), and every failure mode of either
request — quote rejection, quote non-OK status (429 included), quote
parse failure, profile rejection, profile parse failure after an OK
status — yields `none`. -/
theorem C5_never_raises (sym : String) (q : HttpResult QuoteJson)
    (p : HttpResult ProfileJson) :
    ((∃ r, fetchStockFromFinnhubBody sym q p = .ok r ∧
        fetchStockFromFinnhub sym q p = some r) ∨
     (∃ e, fetchStockFromFinnhubBody sym q p = .error e ∧
        fetchStockFromFinnhub sym q p = none)) ∧
    (q = .netError → fetchStockFromFinnhub sym q p = none) ∧
    (∀ (st : ℕ) (b : Option QuoteJson), q = .resp false st b →
        fetchStockFromFinnhub sym q p = none) ∧
    (∀ st : ℕ, q = .resp true st none → fetchStockFromFinnhub sym q p = none) ∧
    (∀ (st : ℕ) (qd : QuoteJson), q = .resp true st (some qd) → p = .netError →
        fetchStockFromFinnhub sym q p = none) ∧
    (∀ (st : ℕ) (qd : QuoteJson) (pst : ℕ),
        q = .resp true st (some qd) → p = .resp true pst none →
        fetchStockFromFinnhub sym q p = none) := by
  refine ⟨?_, ?_, ?_, ?_, ?_, ?_⟩
  · cases h : fetchStockFromFinnhubBody sym q p with
    | ok r => exact .inl ⟨r, rfl, by simp [fetchStockFromFinnhub, h]⟩
    | error e => exact .inr ⟨e, rfl, by simp [fetchStockFromFinnhub, h]⟩
  · rintro rfl
    rfl
  · rintro st b rfl
    by_cases h429 : st = 429 <;>
      simp [fetchStockFromFinnhub, fetchStockFromFinnhubBody, h429]
  · rintro st rfl
    rfl
  · rintro st qd rfl rfl
    rfl
  · rintro st qd pst rfl rfl
    rfl

/-- C5 witnessed at two failure modes: a rejected quote request and a
rate-limited quote response both yield an absent result. -/
theorem C5_never_raises_witness :
    fetchStockFromFinnhub "AAPL" .netError .netError = none ∧
    fetchStockFromFinnhub "AAPL" (.resp false 429 none) .netError = none :=
  ⟨(C5_never_raises "AAPL" .netError .netError).2.1 rfl,
   (C5_never_raises "AAPL" (.resp false 429 none) .netError).2.2.1 429 none rfl⟩

/-- C6: `fetchIfFresh` immediately after `store` (any read within the
5-minute window) returns exactly the stored records; once the age reaches
the window it returns the empty list. -/
theorem C6_cache_roundtrip :
    (∀ (data : List StockData) (t₀ t₁ : ℤ), t₁ - t₀ < CACHE_DURATION →
        getCachedStockData (cacheStockData data t₀) t₁ = data) ∧
    (∀ (s : CacheState) (t : ℤ), CACHE_DURATION ≤ t - s.timestamp →
        getCachedStockData s t = []) := by
  constructor
  · intro data t₀ t₁ h
    simp [getCachedStockData, cacheStockData, h]
  · intro s t h
    rw [getCachedStockData, if_neg (by omega)]

/-- C6 witnessed: a record stored at time 0 is still returned at
299999 ms and no longer returned at 300000 ms. -/
theorem C6_cache_roundtrip_witness :
    getCachedStockData
        (cacheStockData [⟨"AAPL", "Apple Inc", 100, .fin 0, 10⟩] 0) 299999
      = [⟨"AAPL", "Apple Inc", 100, .fin 0, 10⟩] ∧
    getCachedStockData ⟨[⟨"AAPL", "Apple Inc", 100, .fin 0, 10⟩], 0⟩ 300000
      = [] :=
  ⟨C6_cache_roundtrip.1 [⟨"AAPL", "Apple Inc", 100, .fin 0, 10⟩] 0 299999
      (by norm_num [CACHE_DURATION]),
   C6_cache_roundtrip.2 ⟨[⟨"AAPL", "Apple Inc", 100, .fin 0, 10⟩], 0⟩ 300000
      (by norm_num [CACHE_DURATION])⟩

/-- C10: when the quote request succeeds but `c` (current price) is
missing or `0`, the fetch still yields a record — price `0`,
`changePercent` `0` — provided the profile step itself does not throw;
and a missing `v` makes the record's volume `0`. -/
theorem C10_zero_price_defaults (sym : String) (st : ℕ) (c pc v : Option ℚ)
    (p : HttpResult ProfileJson) (hp : profileNoThrow p = true)
    (hc : c = none ∨ c = some 0) :
    ∃ r : StockData,
      fetchStockFromFinnhub sym (.resp true st (some ⟨c, pc, v⟩)) p = some r ∧
      r.price = 0 ∧ r.changePercent = .fin 0 ∧
      r.volume = jsOrZero v ∧ (v = none → r.volume = 0) := by
  have hcp : toFixed2ParseFloat (rawChangePercent c pc) = .fin 0 := by
    rcases hc with rfl | rfl <;>
      simp [rawChangePercent, toFixed2ParseFloat, round2_zero]
  have hpr : jsOrZero c = 0 := by
    rcases hc with rfl | rfl <;> simp [jsOrZero]
  cases p with
  | netError => simp [profileNoThrow] at hp
  | resp pok pst pbody =>
    cases pok with
    | false =>
      refine ⟨_, rfl, ?_⟩
      refine ⟨hpr, hcp, rfl, ?_⟩
      rintro rfl
      rfl
    | true =>
      cases pbody with
      | none => simp [profileNoThrow] at hp
      | some pd =>
        refine ⟨_, rfl, ?_⟩
        refine ⟨hpr, hcp, rfl, ?_⟩
        rintro rfl
        rfl

/-- C10 witnessed: a parsed quote body with no `c` and no `v` still
produces a record with price 0, changePercent 0 and volume 0. -/
theorem C10_zero_price_defaults_witness :
    ∃ r : StockData,
      fetchStockFromFinnhub "AAPL"
          (.resp true 200 (some ⟨none, some 100, none⟩)) (.resp false 500 none)
        = some r ∧
      r.price = 0 ∧ r.changePercent = .fin 0 ∧
      r.volume = jsOrZero none ∧ (none = (none : Option ℚ) → r.volume = 0) :=
  C10_zero_price_defaults "AAPL" 200 none (some 100) none (.resp false 500 none)
    (by simp [profileNoThrow]) (Or.inl rfl)

theorem map_symbol_filterMap (env : SymbolEnv) (syms : List String) :
    ((syms.filterMap
        (fun s => fetchStockFromFinnhub s (env s).1 (env s).2)).map
          (fun r => r.symbol))
      = syms.filter
          (fun s => (fetchStockFromFinnhub s (env s).1 (env s).2).isSome) := by
  induction syms with
  | nil => rfl
  | cons a tl ih =>
    rw [List.filterMap_cons, List.filter_cons]
    cases h : fetchStockFromFinnhub a (env a).1 (env a).2 with
    | none => simp [h, ih]
    | some r =>
      simp [h, ih, fetchStockFromFinnhub_symbol a (env a).1 (env a).2 r h]

/-- C7: for a duplicate-free input symbol list, the batch loader's result
has at most as many records as input symbols, its symbols are
duplicate-free, and every symbol whose per-symbol fetch succeeded occurs
exactly once among the result's symbols. -/
theorem C7_batch_loader (syms : List String) (env : SymbolEnv) (now : ℤ)
    (hnd : syms.Nodup) :
    (fetchStocksFromFinnhub syms env now).1.length ≤ syms.length ∧
    ((fetchStocksFromFinnhub syms env now).1.map (fun r => r.symbol)).Nodup ∧
    (∀ s ∈ syms, (fetchStockFromFinnhub s (env s).1 (env s).2).isSome →
      List.count s
        ((fetchStocksFromFinnhub syms env now).1.map (fun r => r.symbol)) = 1) := by
  refine ⟨?_, ?_, ?_⟩
  · calc (fetchStocksFromFinnhub syms env now).1.length
        = ((fetchStocksFromFinnhub syms env now).1.map (fun r => r.symbol)).length := by
          rw [List.length_map]
      _ ≤ syms.length := by
          rw [fetchStocksFromFinnhub, map_symbol_filterMap]
          exact List.length_filter_le _ _
  · rw [fetchStocksFromFinnhub, map_symbol_filterMap]
    exact hnd.filter _
  · intro s hs hsome
    rw [fetchStocksFromFinnhub, map_symbol_filterMap]
    exact List.count_eq_one_of_mem (hnd.filter _)
      (List.mem_filter.mpr ⟨hs, hsome⟩)

/-- C7 witnessed on the fixed ten-symbol universe with every fetch
succeeding: ten records, duplicate-free symbols, and AAPL appearing
exactly once. -/
theorem C7_batch_loader_witness :
    (fetchStocksFromFinnhub symbols
        (fun _ => (.resp true 200 (some ⟨some 100, some 50, some 10⟩),
                   .resp false 500 none)) 0).1.length ≤ symbols.length ∧
    ((fetchStocksFromFinnhub symbols
        (fun _ => (.resp true 200 (some ⟨some 100, some 50, some 10⟩),
                   .resp false 500 none)) 0).1.map (fun r => r.symbol)).Nodup ∧
    List.count "AAPL"
      ((fetchStocksFromFinnhub symbols
          (fun _ => (.resp true 200 (some ⟨some 100, some 50, some 10⟩),
                     .resp false 500 none)) 0).1.map (fun r => r.symbol)) = 1 := by
  have h := C7_batch_loader symbols
    (fun _ => (.resp true 200 (some ⟨some 100, some 50, some 10⟩),
               .resp false 500 none)) 0 (by decide)
  exact ⟨h.1, h.2.1, h.2.2 "AAPL" (by decide)
    (by norm_num [fetchStockFromFinnhub, fetchStockFromFinnhubBody])⟩

/-- C9: every run of the orchestrated fetch with an API key present
overwrites the cache with the batch's filtered results and the store-time
timestamp, whatever the previous cache state; in particular a run in
which every per-symbol fetch fails replaces the cache with the empty
snapshot and ends in the fatal error. -/
theorem C9_cache_overwrite (key : String) (env : SymbolEnv)
    (cache₀ : CacheState) (tStore tRead : ℤ) :
    (fetchStockData (some key) env cache₀ tStore tRead).cache
      = cacheStockData
          (symbols.filterMap (fun s => fetchStockFromFinnhub s (env s).1 (env s).2))
          tStore ∧
    ((∀ s ∈ symbols, fetchStockFromFinnhub s (env s).1 (env s).2 = none) →
      (fetchStockData (some key) env cache₀ tStore tRead).cache = ⟨[], tStore⟩ ∧
      (fetchStockData (some key) env cache₀ tStore tRead).result
        = .error "Failed to fetch stock data from Finnhub API") := by
  constructor
  · rw [fetchStockData]
    split
    · split <;> rfl
    · rfl
  · intro h
    have hnil : symbols.filterMap
        (fun s => fetchStockFromFinnhub s (env s).1 (env s).2) = [] :=
      List.filterMap_eq_nil_iff.mpr h
    constructor
    · simp [fetchStockData, fetchStocksFromFinnhub, hnil, getCachedStockData,
        cacheStockData]
    · simp [fetchStockData, fetchStocksFromFinnhub, hnil, getCachedStockData,
        cacheStockData]

/-- C9 witnessed: with every quote request rejecting and a non-empty
previous cache, the run leaves an empty cache stamped with the store time
and throws the fatal error. -/
theorem C9_cache_overwrite_witness :
    (fetchStockData (some "key") (fun _ => (.netError, .netError))
        ⟨[⟨"AAPL", "Apple Inc", 100, .fin 0, 10⟩], 0⟩ 60000 60000).cache
      = ⟨[], 60000⟩ ∧
    (fetchStockData (some "key") (fun _ => (.netError, .netError))
        ⟨[⟨"AAPL", "Apple Inc", 100, .fin 0, 10⟩], 0⟩ 60000 60000).result
      = .error "Failed to fetch stock data from Finnhub API" :=
  (C9_cache_overwrite "key" (fun _ => (.netError, .netError))
      ⟨[⟨"AAPL", "Apple Inc", 100, .fin 0, 10⟩], 0⟩ 60000 60000).2
    (by intro s _; rfl)

/-- C1 evaluated at the failing input: every per-symbol quote request
rejects, while the previous cache holds a record stored 60 s before the
run (fresh, as the first conjunct shows).  The claim expects the cached
snapshot back together with a warning event; the code instead overwrites
the cache with the empty batch before the empty-result check, so the
cached-data branch of the catch reads the clobbered cache and the run
ends in the fatal error with no events. -/
theorem C1_cache_clobber_eval :
    getCachedStockData ⟨[⟨"AAPL", "Apple Inc", 100, .fin 0, 10⟩], 0⟩ 60000
      = [⟨"AAPL", "Apple Inc", 100, .fin 0, 10⟩] ∧
    (fetchStockData (some "key") (fun _ => (.netError, .netError))
        ⟨[⟨"AAPL", "Apple Inc", 100, .fin 0, 10⟩], 0⟩ 60000 60000).result
      = .error "Failed to fetch stock data from Finnhub API" ∧
    (fetchStockData (some "key") (fun _ => (.netError, .netError))
        ⟨[⟨"AAPL", "Apple Inc", 100, .fin 0, 10⟩], 0⟩ 60000 60000).cache
      = ⟨[], 60000⟩ ∧
    (fetchStockData (some "key") (fun _ => (.netError, .netError))
        ⟨[⟨"AAPL", "Apple Inc", 100, .fin 0, 10⟩], 0⟩ 60000 60000).events
      = [] := by
  refine ⟨?_, ?_, ?_, ?_⟩ <;> rfl

/-- C3 counterexample: with a retry budget of 2 (the default), three
rate-limited responses in a row exhaust the loop — each 429 `continue`
still increments `attempt` — and the post-loop error is thrown after
three fixed 2-second waits, so a 429 retry does count against the
budget.  Moreover a 429 at attempt 0 followed by a network error waits
`1000 * 2^1` ms (not `1000 * 2^0`) before the third, successful attempt:
the 429 also advances the exponential-backoff exponent. -/
theorem C3_counterexample :
    fetchHistoricalDataWithRetry (fun _ => .resp false 429 none) 2
      = .failure "Failed to fetch historical data after retries"
          [2000, 2000, 2000] ∧
    fetchHistoricalDataWithRetry
        (fun n => if n = 0 then .resp false 429 none
                  else if n = 1 then .netError
                  else .resp true 200 (some ⟨some [1], some [1]⟩)) 2
      = .success ⟨some [1], some [1]⟩ [2000, 2000] := by
  exact ⟨rfl, rfl⟩

theorem retryLoop_all_fail (responses : ℕ → HttpResult CandlePayload)
    (retries : ℕ) (h : ∀ n, isSuccessResp (responses n) = false) :
    ∀ fuel attempt, ∃ msg ds,
      retryLoop responses retries fuel attempt = .failure msg ds := by
  intro fuel
  induction fuel with
  | zero => exact fun attempt => ⟨_, _, rfl⟩
  | succ fuel ih =>
    intro attempt
    obtain ⟨m, ds, hm⟩ := ih (attempt + 1)
    cases hr : responses attempt with
    | netError =>
      by_cases he : attempt = retries
      · exact ⟨"fetch failed", [], by simp only [retryLoop, hr, if_pos he]⟩
      · exact ⟨m, 1000 * 2 ^ attempt :: ds, by simp only [retryLoop, hr,
          if_neg he, hm, RetryResult.addDelay]⟩
    | resp ok st b =>
      cases ok with
      | true =>
        cases b with
        | some d =>
          have hh := h attempt
          rw [hr] at hh
          simp [isSuccessResp] at hh
        | none =>
          by_cases he : attempt = retries
          · exact ⟨"invalid json", [], by simp only [retryLoop, hr, if_pos he]⟩
          · exact ⟨m, 1000 * 2 ^ attempt :: ds, by simp only [retryLoop, hr,
              if_neg he, hm, RetryResult.addDelay]⟩
      | false =>
        by_cases h429 : st = 429
        · exact ⟨m, 2000 :: ds, by simp only [retryLoop, hr, if_pos h429, hm,
            RetryResult.addDelay]⟩
        · by_cases he : attempt = retries
          · exact ⟨"HTTP error! status: " ++ toString st, [],
              by simp only [retryLoop, hr, if_neg h429, if_pos he]⟩
          · exact ⟨m, 1000 * 2 ^ attempt :: ds, by simp only [retryLoop, hr,
              if_neg h429, if_neg he, hm, RetryResult.addDelay]⟩

/-- C3 amended: a 429 response causes a fixed 2000 ms wait and a retry
that consumes one loop iteration — it counts against the 3-attempt
budget and advances the backoff exponent, since `continue` still
increments `attempt`.  Any other failing response waits
`1000 * 2 ^ attempt` ms when attempts remain, and on the final attempt
propagates as an error; a run in which no attempt succeeds always ends
in a propagated failure, which `fetchHistoricalData` catches, setting
the error state and substituting the synthetic fallback series instead
of raising to the UI. -/
theorem C3_amended :
    (∀ (responses : ℕ → HttpResult CandlePayload)
        (retries fuel attempt : ℕ) (b : Option CandlePayload),
      responses attempt = .resp false 429 b →
      retryLoop responses retries (fuel + 1) attempt
        = .addDelay 2000 (retryLoop responses retries fuel (attempt + 1))) ∧
    (∀ (responses : ℕ → HttpResult CandlePayload) (retries fuel attempt : ℕ),
      attempt ≠ retries → throwsInLoop (responses attempt) = true →
      retryLoop responses retries (fuel + 1) attempt
        = .addDelay (1000 * 2 ^ attempt)
            (retryLoop responses retries fuel (attempt + 1))) ∧
    (∀ (responses : ℕ → HttpResult CandlePayload) (retries fuel attempt : ℕ),
      attempt = retries → throwsInLoop (responses attempt) = true →
      ∃ msg, retryLoop responses retries (fuel + 1) attempt = .failure msg []) ∧
    (∀ (responses : ℕ → HttpResult CandlePayload) (retries : ℕ),
      (∀ n, isSuccessResp (responses n) = false) →
      ∃ msg ds, fetchHistoricalDataWithRetry responses retries = .failure msg ds) ∧
    (∀ (key : String) (responses : ℕ → HttpResult CandlePayload)
        (rand : ℕ → ℚ) (price : ℚ) (dayLabel : ℕ → String)
        (tsLabel : ℤ → String) (msg : String) (ds : List ℕ),
      fetchHistoricalDataWithRetry responses 2 = .failure msg ds →
      fetchHistoricalData (some key) responses rand price dayLabel tsLabel
        = ⟨generateFallbackData rand price dayLabel,
           some "Failed to load historical data", true⟩) := by
  refine ⟨?_, ?_, ?_, ?_, ?_⟩
  · intro responses retries fuel attempt b hr
    simp [retryLoop, hr]
  · intro responses retries fuel attempt he ht
    cases hr : responses attempt with
    | netError => simp only [retryLoop, hr, if_neg he]
    | resp ok st b =>
      cases ok with
      | true =>
        cases b with
        | some d => rw [hr] at ht; simp [throwsInLoop] at ht
        | none => simp only [retryLoop, hr, if_neg he]
      | false =>
        rw [hr] at ht
        have h429 : st ≠ 429 := by simpa [throwsInLoop] using ht
        simp only [retryLoop, hr, if_neg h429, if_neg he]
  · intro responses retries fuel attempt he ht
    cases hr : responses attempt with
    | netError => exact ⟨"fetch failed", by simp only [retryLoop, hr, if_pos he]⟩
    | resp ok st b =>
      cases ok with
      | true =>
        cases b with
        | some d => rw [hr] at ht; simp [throwsInLoop] at ht
        | none => exact ⟨"invalid json", by simp only [retryLoop, hr, if_pos he]⟩
      | false =>
        rw [hr] at ht
        have h429 : st ≠ 429 := by simpa [throwsInLoop] using ht
        exact ⟨"HTTP error! status: " ++ toString st,
          by simp only [retryLoop, hr, if_neg h429, if_pos he]⟩
  · intro responses retries h
    exact retryLoop_all_fail responses retries h (retries + 1) 0
  · intro key responses rand price dayLabel tsLabel msg ds h
    rw [fetchHistoricalData, h]

/-- C3 amended, witnessed: one 429 step from attempt 0 consumes an
iteration after a 2000 ms wait, and the all-429 run makes
`fetchHistoricalData` fall back with the error state set. -/
theorem C3_amended_witness :
    retryLoop (fun _ => .resp false 429 none) 2 3 0
      = .addDelay 2000 (retryLoop (fun _ => .resp false 429 none) 2 2 1) ∧
    fetchHistoricalData (some "key") (fun _ => .resp false 429 none)
        (fun _ => 1/2) 100 (fun _ => "d") (fun _ => "t")
      = ⟨generateFallbackData (fun _ => 1/2) 100 (fun _ => "d"),
         some "Failed to load historical data", true⟩ :=
  ⟨C3_amended.1 (fun _ => .resp false 429 none) 2 2 0 none rfl,
   C3_amended.2.2.2.2 "key" (fun _ => .resp false 429 none) (fun _ => 1/2) 100
     (fun _ => "d") (fun _ => "t")
     "Failed to fetch historical data after retries" [2000, 2000, 2000] rfl⟩

/-- C8: whenever the retry loop returns a parsed payload that lacks the
timestamp array or the close-price array, `fetchHistoricalData`
substitutes the synthetic series: exactly 31 points, labelled with the
dates 30 down to 0 days ago, each stored point being the running walk
value rounded to 2 decimals, where the walk starts at the stock's
current price and each step multiplies its predecessor by `1 + c` with
`|c| ≤ 5%` (given that each random draw lies in `[0, 1)`). -/
theorem C8_fallback_series (key : String)
    (responses : ℕ → HttpResult CandlePayload) (rand : ℕ → ℚ) (price : ℚ)
    (dayLabel : ℕ → String) (tsLabel : ℤ → String) (d : CandlePayload)
    (ds : List ℕ)
    (hret : fetchHistoricalDataWithRetry responses 2 = .success d ds)
    (hmal : d.t = none ∨ d.c = none)
    (hrand : ∀ i, 0 ≤ rand i ∧ rand i < 1) :
    (fetchHistoricalData (some key) responses rand price dayLabel tsLabel).usedFallback
      = true ∧
    (fetchHistoricalData (some key) responses rand price dayLabel tsLabel).chart
      = generateFallbackData rand price dayLabel ∧
    (generateFallbackData rand price dayLabel).data.length = 31 ∧
    (generateFallbackData rand price dayLabel).labels
      = (List.range 31).map (fun k => dayLabel (30 - k)) ∧
    (generateFallbackData rand price dayLabel).data
      = (List.range 31).map (fun k => round2 (fallbackWalk rand price (k + 1))) ∧
    fallbackWalk rand price 0 = price ∧
    (∀ k : ℕ, ∃ c : ℚ, |c| ≤ 1/20 ∧
      fallbackWalk rand price (k + 1) = fallbackWalk rand price k * (1 + c)) := by
  have hfall :
      fetchHistoricalData (some key) responses rand price dayLabel tsLabel
        = ⟨generateFallbackData rand price dayLabel, none, true⟩ := by
    obtain ⟨t, c⟩ := d
    rcases hmal with h | h
    · simp only at h
      subst h
      rw [fetchHistoricalData, hret]
    · simp only at h
      subst h
      cases t with
      | none => rw [fetchHistoricalData, hret]
      | some ts => rw [fetchHistoricalData, hret]
  refine ⟨by rw [hfall], by rw [hfall], ?_, rfl, rfl, rfl, ?_⟩
  · simp [generateFallbackData]
  · intro k
    obtain ⟨h0, h1⟩ := hrand k
    refine ⟨(rand k - 1/2) * (1/10), ?_, rfl⟩
    have habs : |(rand k - 1/2) * (1/10 : ℚ)| = |rand k - 1/2| * (1/10) := by
      rw [abs_mul]
      norm_num
    have hb : |rand k - 1/2| ≤ 1/2 := abs_le.mpr ⟨by linarith, by linarith⟩
    rw [habs]
    linarith

/-- C8 witnessed: an OK response whose payload lacks the timestamp array
triggers the fallback, with all claimed shape properties. -/
theorem C8_fallback_series_witness :
    (fetchHistoricalData (some "key")
        (fun _ => .resp true 200 (some ⟨none, some []⟩)) (fun _ => 1/2) 100
        (fun n => toString n) (fun _ => "")).usedFallback = true ∧
    (fetchHistoricalData (some "key")
        (fun _ => .resp true 200 (some ⟨none, some []⟩)) (fun _ => 1/2) 100
        (fun n => toString n) (fun _ => "")).chart
      = generateFallbackData (fun _ => 1/2) 100 (fun n => toString n) ∧
    (generateFallbackData (fun _ => 1/2) 100 (fun n => toString n)).data.length
      = 31 ∧
    (generateFallbackData (fun _ => 1/2) 100 (fun n => toString n)).labels
      = (List.range 31).map (fun k => toString (30 - k)) ∧
    (generateFallbackData (fun _ => 1/2) 100 (fun n => toString n)).data
      = (List.range 31).map
          (fun k => round2 (fallbackWalk (fun _ => 1/2) 100 (k + 1))) ∧
    fallbackWalk (fun _ => 1/2) 100 0 = 100 ∧
    (∀ k : ℕ, ∃ c : ℚ, |c| ≤ 1/20 ∧
      fallbackWalk (fun _ => 1/2) 100 (k + 1)
        = fallbackWalk (fun _ => 1/2) 100 k * (1 + c)) :=
  C8_fallback_series "key" (fun _ => .resp true 200 (some ⟨none, some []⟩))
    (fun _ => 1/2) 100 (fun n => toString n) (fun _ => "") ⟨none, some []⟩ []
    rfl (Or.inl rfl) (fun _ => ⟨by norm_num, by norm_num⟩)
